import Mathlib

/-!
Verification of `backctl` (src/src/main.rs), a sysfs backlight control
utility.  The embedding models the integer arithmetic of the Rust source
exactly: user arguments are parsed as `i32`, sysfs attribute files are
parsed as `u32`, the `as i32` casts wrap values at 2^31, and i32
arithmetic wraps modulo 2^32 (release-mode semantics).  Filesystem state
of one device is a record of the two attribute files; every performed
read and every successful write is recorded as an event so that frame
and fail-fast properties can be stated.
-/

/-- Two's-complement range bound for i32. -/
def i32Mod : Int := 4294967296

/-- `i32::MIN` as an integer. -/
def i32Min : Int := -2147483648

/-- Wrap an integer into the i32 range, as Rust release-mode arithmetic does. -/
def wrap32 (x : Int) : Int := (x + 2147483648) % 4294967296 - 2147483648

/-- The Rust cast `u32 as i32` (two's complement reinterpretation), for `n < 2^32`. -/
def toI32 (n : Nat) : Int :=
  if n < 2147483648 then (n : Int) else (n : Int) - 4294967296

/-- Rust's `char::to_digit(10).is_some()`: the character is one of `'0'..='9'`
(code points 48 to 57). -/
def isDecDigit (c : Char) : Bool :=
  48 ≤ c.toNat && c.toNat ≤ 57

/-- Numeric value of a list of decimal digit characters (Rust's accumulation loop). -/
def digitsToNat (l : List Char) : Nat :=
  l.foldl (fun acc c => acc * 10 + (c.toNat - 48)) 0

/-- Value of a nonempty all-digit character list; `none` otherwise.
Models the digit loop of Rust's `from_str_radix` (base 10). -/
def decDigitsVal (l : List Char) : Option Nat :=
  if l.isEmpty then none
  else if l.all isDecDigit then some (digitsToNat l) else none

/-- Rust's `str::parse::<i32>()`: optional sign, then decimal digits, value
within `[-2^31, 2^31-1]`; the per-step overflow check is equivalent to the
bound on the final value. -/
def parseI32 (s : String) : Option Int :=
  match s.data with
  | [] => none
  | c :: rest =>
    if c = '-' then
      match decDigitsVal rest with
      | none => none
      | some n => if n ≤ 2147483648 then some (-(n : Int)) else none
    else if c = '+' then
      match decDigitsVal rest with
      | none => none
      | some n => if n < 2147483648 then some (n : Int) else none
    else
      match decDigitsVal (c :: rest) with
      | none => none
      | some n => if n < 2147483648 then some (n : Int) else none

/-- Rust's `str::parse::<u32>()`: optional leading `+`, then decimal digits,
value below `2^32`.  The `-` sign arm of `from_str_radix` is guarded to
signed types, so for u32 a leading `-` is never consumed: it reaches the
digit loop and fails as an invalid digit (any non-sign, non-digit first
character takes the same path). -/
def parseU32 (s : String) : Option Nat :=
  match s.data with
  | [] => none
  | c :: rest =>
    if c = '+' then
      match decDigitsVal rest with
      | none => none
      | some n => if n < 4294967296 then some n else none
    else
      match decDigitsVal (c :: rest) with
      | none => none
      | some n => if n < 4294967296 then some n else none

/-- Rust's `char::is_whitespace` (the Unicode White_Space property). -/
def isRustWhitespace (c : Char) : Bool :=
  let n := c.toNat
  (9 ≤ n && n ≤ 13) || n = 32 || n = 133 || n = 160 || n = 5760 ||
  (8192 ≤ n && n ≤ 8202) || n = 8232 || n = 8233 || n = 8239 || n = 8287 || n = 12288

/-- Rust's `str::trim`: drop leading and trailing whitespace characters. -/
def rustTrim (s : String) : String :=
  String.mk (((s.data.dropWhile isRustWhitespace).reverse.dropWhile isRustWhitespace).reverse)

/-- The two error kinds of the program relevant to a single device
(`error_chain` foreign links `Io` and `ParseInt`). -/
inductive Err where
  | ioError
  | parseError
deriving DecidableEq, Repr

/-- The filesystem state a `Backlight` (a sysfs device directory) denotes:
the contents of its two attribute files (`none` models a file whose
open/read fails) and whether `brightness` can be opened for writing. -/
structure Backlight where
  brightness : Option String
  max_brightness : Option String
  brightness_writable : Bool
deriving DecidableEq, Repr

/-- One performed filesystem access on a device: a read of an attribute
file (recorded also when the open/read fails), or a successful write of a
value to an attribute file. -/
inductive Event where
  | readAttr (attr : String)
  | writeAttr (attr : String) (v : Nat)
deriving DecidableEq, Repr

/-- `Backlight::read_value`: open and read the attribute file, trim, parse
as u32.  `content` is the file the attribute path resolves to. -/
def Backlight.read_value (content : Option String) : Except Err Nat :=
  match content with
  | none => Except.error Err.ioError
  | some s =>
    match parseU32 (rustTrim s) with
    | none => Except.error Err.parseError
    | some n => Except.ok n

/-- `Backlight::get_brightness`. -/
def Backlight.get_brightness (bl : Backlight) : Except Err Nat :=
  Backlight.read_value bl.brightness

/-- `Backlight::get_max_brightness`. -/
def Backlight.get_max_brightness (bl : Backlight) : Except Err Nat :=
  Backlight.read_value bl.max_brightness

/-- `Backlight::set_brightness`: open `brightness` for writing and write
the decimal representation of the value. -/
def Backlight.set_brightness (bl : Backlight) (v : Nat) : Except Err Backlight :=
  if bl.brightness_writable then
    Except.ok { bl with brightness := some (toString v) }
  else
    Except.error Err.ioError

/-- The `Update` struct: `relative` flag and the stored i32 `value`. -/
structure Update where
  relative : Bool
  value : Int
deriving DecidableEq, Repr

/-- `Update::new`: trim the argument and parse it as i32. -/
def Update.new (relative : Bool) (valstr : String) : Except Err Update :=
  match parseI32 (rustTrim valstr) with
  | none => Except.error Err.parseError
  | some v => Except.ok ⟨relative, v⟩

/-- `Update::set`. -/
def Update.set (valstr : String) : Except Err Update :=
  Update.new false valstr

/-- `Update::inc`. -/
def Update.inc (valstr : String) : Except Err Update :=
  Update.new true valstr

/-- `Update::dec`: build as `inc` and negate (`value *= -1`, which wraps on
`i32::MIN` in release mode). -/
def Update.dec (valstr : String) : Except Err Update :=
  match Update.new true valstr with
  | Except.error e => Except.error e
  | Except.ok u => Except.ok ⟨u.relative, wrap32 (-u.value)⟩

/-- `Update::apply`: read current brightness when relative, add the stored
value (i32 arithmetic), read the maximum, clamp above then below, write the
result.  Returns the device outcome together with the list of filesystem
accesses performed, in order. -/
def Update.apply (u : Update) (bl : Backlight) : Except Err Backlight × List Event :=
  if u.relative then
    match Backlight.get_brightness bl with
    | Except.error e => (Except.error e, [Event.readAttr "brightness"])
    | Except.ok original =>
      match Backlight.get_max_brightness bl with
      | Except.error e =>
        (Except.error e, [Event.readAttr "brightness", Event.readAttr "max_brightness"])
      | Except.ok m =>
        let value0 := wrap32 (toI32 original + u.value)
        let mx := toI32 m
        let value1 := if value0 > mx then mx else value0
        let value2 := if value1 < 0 then 0 else value1
        match Backlight.set_brightness bl value2.toNat with
        | Except.error e =>
          (Except.error e, [Event.readAttr "brightness", Event.readAttr "max_brightness"])
        | Except.ok bl2 =>
          (Except.ok bl2,
           [Event.readAttr "brightness", Event.readAttr "max_brightness",
            Event.writeAttr "brightness" value2.toNat])
  else
    match Backlight.get_max_brightness bl with
    | Except.error e => (Except.error e, [Event.readAttr "max_brightness"])
    | Except.ok m =>
      let value0 := u.value
      let mx := toI32 m
      let value1 := if value0 > mx then mx else value0
      let value2 := if value1 < 0 then 0 else value1
      match Backlight.set_brightness bl value2.toNat with
      | Except.error e => (Except.error e, [Event.readAttr "max_brightness"])
      | Except.ok bl2 =>
        (Except.ok bl2,
         [Event.readAttr "max_brightness", Event.writeAttr "brightness" value2.toNat])

/-- The loop of `main`: apply the update to each enumerated device in
order, aborting at the first failure (`unwrap` panics).  The second
component gives, for every enumerated device, the accesses performed on
it; devices after an abort get the empty list. -/
def runAll (u : Update) : List Backlight → Except Err Unit × List (List Event)
  | [] => (Except.ok (), [])
  | bl :: rest =>
    match Update.apply u bl with
    | (Except.error e, evs) => (Except.error e, evs :: rest.map (fun _ => ([] : List Event)))
    | (Except.ok _, evs) =>
      let r := runAll u rest
      (r.1, evs :: r.2)

/-- The recognized subcommands with their `VALUE` argument. -/
inductive Cmd where
  | set (v : String)
  | inc (v : String)
  | dec (v : String)
deriving DecidableEq, Repr

/-- Dispatch of `main` from the matched subcommand to an `Update`. -/
def Update.ofCmd : Cmd → Except Err Update
  | Cmd.set s => Update.set s
  | Cmd.inc s => Update.inc s
  | Cmd.dec s => Update.dec s

/-- `main` after argument matching: `cmd = none` models no recognized
subcommand.  The `Bool` records whether device enumeration was performed. -/
def runMain (cmd : Option Cmd) (devices : List Backlight) :
    Except Err Unit × Bool × List (List Event) :=
  match cmd with
  | none => (Except.ok (), false, [])
  | some c =>
    match Update.ofCmd c with
    | Except.error e => (Except.error e, false, [])
    | Except.ok u =>
      let r := runAll u devices
      (r.1, true, r.2)

/-! ### Specification-side definitions

These are written from the words of the specification, to be compared
with the definitions above that embed the source. -/

/-- Spec glossary clamp: restrict `x` to `[lo, hi]` by replacing
out-of-range values with the nearest boundary. -/
def clampSpec (x lo hi : Int) : Int :=
  if x < lo then lo else if x > hi then hi else x

/-- Spec wording for argument parsing: an optional leading `-` followed by
decimal digits. -/
def optMinusDigits (s : String) : Bool :=
  match s.data with
  | [] => false
  | c :: rest =>
    if c = '-' then !rest.isEmpty && rest.all isDecDigit
    else (c :: rest).all isDecDigit

/-- Spec wording for file contents: a base-10 non-negative integer
(decimal digits only). -/
def digitsOnly (s : String) : Bool :=
  !s.data.isEmpty && s.data.all isDecDigit

/-- Amended validity for user arguments: an optional leading `-` or `+`
followed by decimal digits, whose value fits in i32 (at most `2^31 - 1`,
or at most `2^31` after a `-`). -/
def signedDigitsInRangeI32 (s : String) : Bool :=
  match s.data with
  | [] => false
  | c :: rest =>
    if c = '-' then
      !rest.isEmpty && rest.all isDecDigit && decide (digitsToNat rest ≤ 2147483648)
    else if c = '+' then
      !rest.isEmpty && rest.all isDecDigit && decide (digitsToNat rest < 2147483648)
    else
      (c :: rest).all isDecDigit && decide (digitsToNat (c :: rest) < 2147483648)

/-- Amended validity for u32 file contents, with its value: an optional
leading `+` followed by decimal digits with value below `2^32`. -/
def u32Text (s : String) : Option Nat :=
  match s.data with
  | [] => none
  | c :: rest =>
    if c = '+' then
      if !rest.isEmpty && rest.all isDecDigit && decide (digitsToNat rest < 4294967296) then
        some (digitsToNat rest)
      else none
    else
      if (c :: rest).all isDecDigit && decide (digitsToNat (c :: rest) < 4294967296) then
        some (digitsToNat (c :: rest))
      else none

/-- The clamp of `Update::apply`, exactly in source order: the upper bound
first, then the lower bound. -/
def clampCode (value mx : Int) : Int :=
  let value1 := if value > mx then mx else value
  if value1 < 0 then 0 else value1

/-- Whether an event is a write. -/
def isWriteEvent : Event → Bool
  | Event.writeAttr _ _ => true
  | Event.readAttr _ => false

/-- Whether a result is a success (an `unwrap` on it would not abort). -/
def exceptIsOk {α : Type} : Except Err α → Bool
  | Except.ok _ => true
  | Except.error _ => false

/-! ### Helper lemmas -/

theorem toI32_small {n : Nat} (h : n < 2147483648) : toI32 n = (n : Int) := by
  unfold toI32
  simp [h]

theorem wrap32_id {x : Int} (h1 : -2147483648 ≤ x) (h2 : x < 2147483648) : wrap32 x = x := by
  unfold wrap32
  omega

theorem parseI32_range {s : String} {v : Int} (h : parseI32 s = some v) :
    -2147483648 ≤ v ∧ v ≤ 2147483647 := by
  unfold parseI32 at h
  rcases hs : s.data with _ | ⟨c, rest⟩ <;> rw [hs] at h
  · simp at h
  · repeat' split at h
    all_goals (try simp at h)
    all_goals omega

theorem clampCode_eq_clampSpec {value mx : Int} (h : 0 ≤ mx) :
    clampCode value mx = clampSpec value 0 mx := by
  simp only [clampCode, clampSpec]
  split_ifs <;> omega

theorem clampCode_bounds {value mx : Int} (h : 0 ≤ mx) :
    0 ≤ clampCode value mx ∧ clampCode value mx ≤ mx := by
  simp only [clampCode]
  constructor <;> (split_ifs <;> omega)

theorem apply_absolute_eq (v : Int) (bl : Backlight) (m : Nat)
    (hm : Backlight.get_max_brightness bl = Except.ok m)
    (hw : bl.brightness_writable = true) :
    Update.apply ⟨false, v⟩ bl =
      (Except.ok { bl with brightness := some (toString (clampCode v (toI32 m)).toNat) },
       [Event.readAttr "max_brightness",
        Event.writeAttr "brightness" (clampCode v (toI32 m)).toNat]) := by
  unfold Update.apply
  rw [hm]
  simp [Backlight.set_brightness, hw, clampCode]

theorem apply_relative_eq (v : Int) (bl : Backlight) (b m : Nat)
    (hb : Backlight.get_brightness bl = Except.ok b)
    (hm : Backlight.get_max_brightness bl = Except.ok m)
    (hw : bl.brightness_writable = true) :
    Update.apply ⟨true, v⟩ bl =
      (Except.ok
        { bl with
          brightness := some (toString (clampCode (wrap32 (toI32 b + v)) (toI32 m)).toNat) },
       [Event.readAttr "brightness", Event.readAttr "max_brightness",
        Event.writeAttr "brightness" (clampCode (wrap32 (toI32 b + v)) (toI32 m)).toNat]) := by
  unfold Update.apply
  rw [hb, hm]
  simp [Backlight.set_brightness, hw, clampCode]

theorem apply_ok_writable {u : Update} {bl : Backlight} {bl1 : Backlight}
    (h : (Update.apply u bl).1 = Except.ok bl1) :
    bl.brightness_writable = true := by
  unfold Update.apply at h
  by_contra hw
  simp only [Backlight.set_brightness, Bool.not_eq_true] at h hw
  rw [hw] at h
  repeat' split at h
  all_goals simp_all

theorem apply_ok_max {u : Update} {bl : Backlight} {bl1 : Backlight}
    (h : (Update.apply u bl).1 = Except.ok bl1) :
    ∃ m, Backlight.get_max_brightness bl = Except.ok m := by
  unfold Update.apply at h
  rcases hm : Backlight.get_max_brightness bl with e | m
  · rw [hm] at h
    repeat' split at h
    all_goals simp_all
  · exact ⟨m, rfl⟩

theorem apply_ok_brightness {v : Int} {bl : Backlight} {bl1 : Backlight}
    (h : (Update.apply ⟨true, v⟩ bl).1 = Except.ok bl1) :
    ∃ b, Backlight.get_brightness bl = Except.ok b := by
  unfold Update.apply at h
  rcases hb : Backlight.get_brightness bl with e | b
  · rw [hb] at h
    simp_all
  · exact ⟨b, rfl⟩

theorem clampCode_toNat_le {x : Int} {m : Nat} (hm : m ≤ 2147483647) :
    (clampCode x (toI32 m)).toNat ≤ m := by
  rw [toI32_small (by omega)]
  have hb := @clampCode_bounds x (m : Int) (by omega)
  omega

/-! ### Claim theorems -/

/-- C8: if no recognized subcommand is given (`cmd = none`), `main` builds no
update, performs no device enumeration and no device file reads or writes,
and exits without error. -/
theorem c8_no_subcommand_no_io (devices : List Backlight) :
    runMain none devices = (Except.ok (), false, []) := rfl

/-- C7: applying the same absolute `set` request twice in succession to a
device yields the same final written brightness as applying it once: if the
first apply succeeds producing state `bl1`, the second apply succeeds and
leaves the state exactly `bl1` (`apply` never modifies `max_brightness`, so
it is unchanged between the applications). -/
theorem c7_set_twice_eq_once (v : Int) (bl bl1 : Backlight)
    (h : (Update.apply ⟨false, v⟩ bl).1 = Except.ok bl1) :
    (Update.apply ⟨false, v⟩ bl1).1 = Except.ok bl1 := by
  have hw := apply_ok_writable h
  obtain ⟨m, hm⟩ := apply_ok_max h
  rw [apply_absolute_eq v bl m hm hw] at h
  simp only [Except.ok.injEq] at h
  subst h
  have hm1 : Backlight.get_max_brightness
      { bl with brightness := some (toString (clampCode v (toI32 m)).toNat) } =
        Except.ok m := by
    simpa [Backlight.get_max_brightness] using hm
  rw [apply_absolute_eq v _ m hm1 hw]

theorem c7_set_twice_eq_once_witness :
    (Update.apply ⟨false, 5⟩ ⟨some "1", some "10", true⟩).1 =
      Except.ok ⟨some "5", some "10", true⟩ ∧
    (Update.apply ⟨false, 5⟩ ⟨some "5", some "10", true⟩).1 =
      Except.ok ⟨some "5", some "10", true⟩ :=
  ⟨by rfl, c7_set_twice_eq_once 5 ⟨some "1", some "10", true⟩
    ⟨some "5", some "10", true⟩ (by rfl)⟩

/-- C9: for every update request applied to a device whose `max_brightness`
reads as `m ≤ 2^31 - 1`, every successful apply writes a value `w` with
`0 ≤ w ≤ m` (the lower clamp runs after the upper clamp, and the written
value is a natural number, hence never negative and never above `m`). -/
theorem c9_written_value_in_range (u : Update) (bl bl2 : Backlight)
    (evs : List Event) (m w : Nat)
    (hm : Backlight.get_max_brightness bl = Except.ok m)
    (hm31 : m ≤ 2147483647)
    (h : Update.apply u bl = (Except.ok bl2, evs))
    (hw : Event.writeAttr "brightness" w ∈ evs) :
    w ≤ m := by
  obtain ⟨rel, v⟩ := u
  have h1 : (Update.apply ⟨rel, v⟩ bl).1 = Except.ok bl2 := by rw [h]
  have hwr := apply_ok_writable h1
  cases rel
  · rw [apply_absolute_eq v bl m hm hwr] at h
    simp only [Prod.mk.injEq] at h
    obtain ⟨-, h2⟩ := h
    subst h2
    simp only [List.mem_cons, List.mem_singleton, Event.writeAttr.injEq] at hw
    rcases hw with hw | hw | hw
    · exact absurd hw (by simp)
    · obtain ⟨-, rfl⟩ := hw
      exact clampCode_toNat_le hm31
    · simp at hw
  · obtain ⟨b, hb⟩ := apply_ok_brightness h1
    rw [apply_relative_eq v bl b m hb hm hwr] at h
    simp only [Prod.mk.injEq] at h
    obtain ⟨-, h2⟩ := h
    subst h2
    simp only [List.mem_cons, List.mem_singleton, Event.writeAttr.injEq] at hw
    rcases hw with hw | hw | hw | hw
    · exact absurd hw (by simp)
    · exact absurd hw (by simp)
    · obtain ⟨-, rfl⟩ := hw
      exact clampCode_toNat_le hm31
    · simp at hw

theorem c9_written_value_in_range_witness :
    Backlight.get_max_brightness ⟨some "10", some "20", true⟩ = Except.ok 20 ∧
    (20 : Nat) ≤ 2147483647 ∧
    Update.apply ⟨true, 15⟩ ⟨some "10", some "20", true⟩ =
      (Except.ok ⟨some "20", some "20", true⟩,
       [Event.readAttr "brightness", Event.readAttr "max_brightness",
        Event.writeAttr "brightness" 20]) ∧
    (20 : Nat) ≤ 20 :=
  ⟨by rfl, by decide, by rfl,
   c9_written_value_in_range ⟨true, 15⟩ ⟨some "10", some "20", true⟩
     ⟨some "20", some "20", true⟩
     [Event.readAttr "brightness", Event.readAttr "max_brightness",
      Event.writeAttr "brightness" 20] 20 20
     (by rfl) (by decide) (by rfl) (by decide)⟩

/-- C10: every successful apply performs exactly one write, and only to the
device's `brightness` file (the `max_brightness` file is never written),
and an absolute (`relative = false`) apply never reads the `brightness`
file. -/
theorem c10_single_write_frame (u : Update) (bl bl2 : Backlight)
    (evs : List Event)
    (h : Update.apply u bl = (Except.ok bl2, evs)) :
    (evs.filter isWriteEvent).length = 1 ∧
    (∀ a w, Event.writeAttr a w ∈ evs → a = "brightness") ∧
    (u.relative = false → Event.readAttr "brightness" ∉ evs) := by
  obtain ⟨rel, v⟩ := u
  have h1 : (Update.apply ⟨rel, v⟩ bl).1 = Except.ok bl2 := by rw [h]
  have hwr := apply_ok_writable h1
  obtain ⟨m, hm⟩ := apply_ok_max h1
  cases rel
  · rw [apply_absolute_eq v bl m hm hwr] at h
    simp only [Prod.mk.injEq] at h
    obtain ⟨-, h2⟩ := h
    subst h2
    refine ⟨by simp [isWriteEvent], ?_, ?_⟩
    · intro a w hw
      simp only [List.mem_cons, List.not_mem_nil, or_false] at hw
      rcases hw with hw | hw
      · exact absurd hw (by simp)
      · injection hw
    · intro hr
      simp
  · rw [apply_relative_eq v bl (Classical.choose (apply_ok_brightness h1)) m
      (Classical.choose_spec (apply_ok_brightness h1)) hm hwr] at h
    simp only [Prod.mk.injEq] at h
    obtain ⟨-, h2⟩ := h
    subst h2
    refine ⟨by simp [isWriteEvent], ?_, ?_⟩
    · intro a w hw
      simp only [List.mem_cons, List.not_mem_nil, or_false] at hw
      rcases hw with hw | hw | hw
      · exact absurd hw (by simp)
      · exact absurd hw (by simp)
      · injection hw
    · intro hr
      simp at hr

theorem c10_single_write_frame_witness :
    (([Event.readAttr "max_brightness",
       Event.writeAttr "brightness" 5].filter isWriteEvent).length = 1) ∧
    Event.readAttr "brightness" ∉
      [Event.readAttr "max_brightness", Event.writeAttr "brightness" 5] := by
  have h := c10_single_write_frame ⟨false, 5⟩ ⟨some "1", some "10", true⟩
    ⟨some "5", some "10", true⟩
    [Event.readAttr "max_brightness", Event.writeAttr "brightness" 5] (by rfl)
  exact ⟨h.1, h.2.2 rfl⟩

/-- C1 counterexample: the claim as stated fails when the brightness file
reads as a value at or above `2^31`.  For `inc 0` on a device whose
brightness file holds `2147483648` and whose max_brightness file holds
`100`, the apply succeeds but writes `0`, while
`clamp(current + delta, 0, max) = 100`. -/
theorem c1_counterexample :
    Update.inc "0" = Except.ok ⟨true, 0⟩ ∧
    Backlight.get_brightness ⟨some "2147483648", some "100", true⟩ =
      Except.ok 2147483648 ∧
    Backlight.get_max_brightness ⟨some "2147483648", some "100", true⟩ =
      Except.ok 100 ∧
    Update.apply ⟨true, 0⟩ ⟨some "2147483648", some "100", true⟩ =
      (Except.ok ⟨some "0", some "100", true⟩,
       [Event.readAttr "brightness", Event.readAttr "max_brightness",
        Event.writeAttr "brightness" 0]) ∧
    clampSpec (2147483648 + 0) 0 100 = 100 ∧
    (0 : Nat) ≠ 100 :=
  ⟨by rfl, by rfl, by rfl, by rfl, by decide, by decide⟩

/-- C1 (amended): for every relative update request with stored delta `v`
applied to a device whose brightness file reads as `b` and whose
max_brightness file reads as `m`, provided the involved values stay within
the i32 range (`b ≤ 2^31 - 1`, `m ≤ 2^31 - 1`, `-2^31 ≤ v`, and
`b + v ≤ 2^31 - 1`), a successful apply writes exactly
`clamp(b + v, 0, m)` to the device's brightness file. -/
theorem c1_relative_writes_clamp (v : Int) (bl bl2 : Backlight)
    (evs : List Event) (b m : Nat)
    (hb : Backlight.get_brightness bl = Except.ok b)
    (hm : Backlight.get_max_brightness bl = Except.ok m)
    (hb31 : b ≤ 2147483647) (hm31 : m ≤ 2147483647)
    (hv : -2147483648 ≤ v) (hsum : (b : Int) + v ≤ 2147483647)
    (h : Update.apply ⟨true, v⟩ bl = (Except.ok bl2, evs)) :
    bl2.brightness = some (toString (clampSpec ((b : Int) + v) 0 (m : Int)).toNat) ∧
    Event.writeAttr "brightness" (clampSpec ((b : Int) + v) 0 (m : Int)).toNat ∈ evs := by
  have h1 : (Update.apply ⟨true, v⟩ bl).1 = Except.ok bl2 := by rw [h]
  have hwr := apply_ok_writable h1
  rw [apply_relative_eq v bl b m hb hm hwr] at h
  simp only [Prod.mk.injEq, Except.ok.injEq] at h
  obtain ⟨h2, h3⟩ := h
  subst h2
  subst h3
  rw [toI32_small (by omega), toI32_small (by omega),
      wrap32_id (by omega) (by omega), clampCode_eq_clampSpec (by omega)]
  exact ⟨rfl, by simp⟩

theorem c1_relative_writes_clamp_witness :
    Backlight.get_brightness ⟨some "50", some "100", true⟩ = Except.ok 50 ∧
    Backlight.get_max_brightness ⟨some "50", some "100", true⟩ = Except.ok 100 ∧
    Update.apply ⟨true, 15⟩ ⟨some "50", some "100", true⟩ =
      (Except.ok ⟨some "65", some "100", true⟩,
       [Event.readAttr "brightness", Event.readAttr "max_brightness",
        Event.writeAttr "brightness" 65]) ∧
    (⟨some "65", some "100", true⟩ : Backlight).brightness =
      some (toString (clampSpec ((50 : Int) + 15) 0 (100 : Int)).toNat) :=
  ⟨by rfl, by rfl, by rfl,
   (c1_relative_writes_clamp 15 ⟨some "50", some "100", true⟩
     ⟨some "65", some "100", true⟩
     [Event.readAttr "brightness", Event.readAttr "max_brightness",
      Event.writeAttr "brightness" 65] 50 100
     (by rfl) (by rfl) (by decide) (by decide) (by decide) (by decide)
     (by rfl)).1⟩

/-- C2 counterexample: the claim as stated fails when the max_brightness
file reads as a value at or above `2^31`.  For `set 5` on a device whose
max_brightness file holds `2147483648` (so `0 ≤ 5 ≤ max`), the apply
succeeds but writes `0`, not `5`. -/
theorem c2_counterexample :
    Update.set "5" = Except.ok ⟨false, 5⟩ ∧
    Backlight.get_max_brightness ⟨some "50", some "2147483648", true⟩ =
      Except.ok 2147483648 ∧
    (0 : Int) ≤ 5 ∧ (5 : Int) ≤ 2147483648 ∧
    Update.apply ⟨false, 5⟩ ⟨some "50", some "2147483648", true⟩ =
      (Except.ok ⟨some "0", some "2147483648", true⟩,
       [Event.readAttr "max_brightness", Event.writeAttr "brightness" 0]) ∧
    (0 : Nat) ≠ 5 :=
  ⟨by rfl, by rfl, by decide, by decide, by rfl, by decide⟩

/-- C2 (amended): for every absolute (`relative = false`) update request
with stored value `v`, if `0 ≤ v ≤ m` where `m ≤ 2^31 - 1` is the value
read from the device's max_brightness file, then a successful apply writes
exactly `v` to the device's brightness file. -/
theorem c2_absolute_writes_delta (v : Int) (bl bl2 : Backlight)
    (evs : List Event) (m : Nat)
    (hm : Backlight.get_max_brightness bl = Except.ok m)
    (hm31 : m ≤ 2147483647)
    (h0 : 0 ≤ v) (hvm : v ≤ (m : Int))
    (h : Update.apply ⟨false, v⟩ bl = (Except.ok bl2, evs)) :
    bl2.brightness = some (toString v.toNat) ∧
    Event.writeAttr "brightness" v.toNat ∈ evs := by
  have h1 : (Update.apply ⟨false, v⟩ bl).1 = Except.ok bl2 := by rw [h]
  have hwr := apply_ok_writable h1
  rw [apply_absolute_eq v bl m hm hwr] at h
  have hcl : clampCode v (toI32 m) = v := by
    rw [toI32_small (by omega)]
    simp only [clampCode]
    split_ifs <;> omega
  rw [hcl] at h
  simp only [Prod.mk.injEq, Except.ok.injEq] at h
  obtain ⟨h2, h3⟩ := h
  subst h2
  subst h3
  exact ⟨rfl, by simp⟩

theorem c2_absolute_writes_delta_witness :
    Backlight.get_max_brightness ⟨some "1", some "10", true⟩ = Except.ok 10 ∧
    Update.apply ⟨false, 5⟩ ⟨some "1", some "10", true⟩ =
      (Except.ok ⟨some "5", some "10", true⟩,
       [Event.readAttr "max_brightness", Event.writeAttr "brightness" 5]) ∧
    (⟨some "5", some "10", true⟩ : Backlight).brightness =
      some (toString (5 : Int).toNat) :=
  ⟨by rfl, by rfl,
   (c2_absolute_writes_delta 5 ⟨some "1", some "10", true⟩
     ⟨some "5", some "10", true⟩
     [Event.readAttr "max_brightness", Event.writeAttr "brightness" 5] 10
     (by rfl) (by decide) (by decide) (by decide) (by rfl)).1⟩

/-- C3 counterexample: the claim as stated fails for
`t = "-2147483648"` (the parsed value is `i32::MIN`): `dec` stores the
wrapped product `i32::MIN * -1 = i32::MIN`, which is not minus the parsed
value of `t`. -/
theorem c3_counterexample :
    parseI32 (rustTrim "-2147483648") = some (-2147483648) ∧
    Update.dec "-2147483648" = Except.ok ⟨true, -2147483648⟩ ∧
    (-2147483648 : Int) ≠ -(-2147483648 : Int) :=
  ⟨by decide, by rfl, by decide⟩

/-- C3 (amended): for every input text `t` whose parsed value `v` is not
`i32::MIN` (so that its negation is representable), `dec t` builds exactly
the request `{relative := true, value := -v}`, which is the same request
`inc` builds on any text `s` parsing to `-v`; being equal requests, their
application to any device is identical. -/
theorem c3_dec_is_negated_inc (t s : String) (v : Int)
    (ht : parseI32 (rustTrim t) = some v)
    (hv : v ≠ -2147483648)
    (hs : parseI32 (rustTrim s) = some (-v)) :
    Update.dec t = Except.ok ⟨true, -v⟩ ∧
    Update.dec t = Update.inc s := by
  have hr := parseI32_range ht
  have hwrap : wrap32 (-v) = -v := wrap32_id (by omega) (by omega)
  unfold Update.dec Update.inc Update.new
  rw [ht, hs]
  simp [hwrap]

theorem c3_dec_is_negated_inc_witness :
    parseI32 (rustTrim "10") = some 10 ∧
    (10 : Int) ≠ -2147483648 ∧
    parseI32 (rustTrim "-10") = some (-10) ∧
    Update.dec "10" = Except.ok ⟨true, -10⟩ ∧
    Update.dec "10" = Update.inc "-10" :=
  ⟨by decide, by decide, by decide,
   (c3_dec_is_negated_inc "10" "-10" 10 (by decide) (by decide) (by decide)).1,
   (c3_dec_is_negated_inc "10" "-10" 10 (by decide) (by decide) (by decide)).2⟩

theorem getD_map_nil (l : List Backlight) (j : Nat) :
    (l.map (fun _ => ([] : List Event))).getD j [] = [] := by
  induction l generalizing j with
  | nil => simp
  | cons a l ih =>
    cases j with
    | zero => rfl
    | succ j2 => exact ih j2

/-- C4: if the apply on the device at position `i` fails (its read or its
write errors), the whole invocation aborts with an error, and every device
enumerated after position `i` is never touched: its recorded access list
is empty. -/
theorem c4_fail_fast (u : Update) (ds : List Backlight) (i j : Nat)
    (hi : i < ds.length)
    (hfail : exceptIsOk (Update.apply u (ds.getD i ⟨none, none, false⟩)).1 = false)
    (hij : i < j) :
    exceptIsOk (runAll u ds).1 = false ∧ (runAll u ds).2.getD j [] = [] := by
  induction ds generalizing i j with
  | nil => simp at hi
  | cons d rest ih =>
    rcases hd : Update.apply u d with ⟨res, evs⟩
    cases res with
    | error e =>
      unfold runAll
      rw [hd]
      refine ⟨rfl, ?_⟩
      cases j with
      | zero => omega
      | succ j2 => exact getD_map_nil rest j2
    | ok bl2 =>
      cases i with
      | zero =>
        rw [List.getD_cons_zero, hd] at hfail
        simp [exceptIsOk] at hfail
      | succ i2 =>
        cases j with
        | zero => omega
        | succ j2 =>
          have hrec := ih i2 j2 (by simpa using hi)
            (by simpa using hfail) (by omega)
          unfold runAll
          rw [hd]
          exact ⟨hrec.1, hrec.2⟩

theorem c4_fail_fast_witness :
    (0 : Nat) < 2 ∧
    exceptIsOk (Update.apply ⟨false, 5⟩
      ([⟨some "1", none, true⟩,
        ⟨some "1", some "10", true⟩].getD 0 ⟨none, none, false⟩)).1 = false ∧
    exceptIsOk (runAll ⟨false, 5⟩
      [⟨some "1", none, true⟩, ⟨some "1", some "10", true⟩]).1 = false ∧
    (runAll ⟨false, 5⟩
      [⟨some "1", none, true⟩, ⟨some "1", some "10", true⟩]).2.getD 1 [] = [] := by
  have h := c4_fail_fast ⟨false, 5⟩
    [⟨some "1", none, true⟩, ⟨some "1", some "10", true⟩] 0 1
    (by decide) (by rfl) (by decide)
  exact ⟨by decide, by rfl, h.1, h.2⟩

theorem parseI32_isSome_iff (s : String) :
    (parseI32 s).isSome = signedDigitsInRangeI32 s := by
  unfold parseI32 signedDigitsInRangeI32 decDigitsVal
  rcases s.data with _ | ⟨c, rest⟩
  · rfl
  · dsimp only
    split_ifs <;> simp_all
    all_goals (split_ifs <;> simp_all)

/-- C5 counterexample: the claim as stated fails for the argument
`"2147483648"`: after trimming it consists only of decimal digits (no
leading `-`), so the claim says parsing succeeds, but the value exceeds
`i32::MAX` and `Update::new` fails with `ParseError` (and `+5`, which the
claim rejects, is in fact accepted). -/
theorem c5_counterexample :
    optMinusDigits (rustTrim "2147483648") = true ∧
    Update.new false "2147483648" = Except.error Err.parseError ∧
    Update.set "2147483648" = Except.error Err.parseError ∧
    Update.new true "+5" = Except.ok ⟨true, 5⟩ ∧
    optMinusDigits (rustTrim "+5") = false :=
  ⟨by decide, by rfl, by rfl, by rfl, by decide⟩

/-- C5 (amended): for every user-supplied argument string, parsing into an
update request (`set`, `inc` and `dec` all go through `Update::new`)
succeeds exactly when the string, after trimming surrounding whitespace,
consists of an optional leading `-` or `+` followed by decimal digits whose
value fits in the i32 range (at most `2^31 - 1`, or at most `2^31` after a
`-`); any other content fails with `ParseError`. -/
theorem c5_parse_accepts_exactly_i32_text (relative : Bool) (s : String) :
    exceptIsOk (Update.new relative s) = signedDigitsInRangeI32 (rustTrim s) := by
  rw [← parseI32_isSome_iff]
  unfold Update.new
  rcases h : parseI32 (rustTrim s) with _ | v <;> simp [h, exceptIsOk]

theorem parseU32_eq_u32Text (s : String) : parseU32 s = u32Text s := by
  unfold parseU32 u32Text
  rcases s.data with _ | ⟨c, rest⟩
  · rfl
  · dsimp only
    by_cases hp : c = '+'
    · unfold decDigitsVal
      by_cases he : rest.isEmpty = true
      · simp [hp, he]
      · by_cases hd : rest.all isDecDigit = true
        · by_cases hb : digitsToNat rest < 4294967296
          · simp [hp, he, hd, hb]
          · simp [hp, he, hd, hb]
        · simp [hp, he, hd]
    · unfold decDigitsVal
      by_cases hd : (c :: rest).all isDecDigit = true
      · by_cases hb : digitsToNat (c :: rest) < 4294967296
        · simp [hp, hd, hb]
        · simp [hp, hd, hb]
      · simp [hp, hd]

/-- C6 counterexample: the claim as stated fails for file content
`"4294967296"`: the trimmed content is a valid non-negative base-10
integer (digits only), so the claim says no `ParseError`, but the value is
`2^32` and the u32 parse in `read_value` fails with `ParseError`
(and content `"+7"`, which is not digits-only, is in fact accepted). -/
theorem c6_counterexample :
    digitsOnly (rustTrim "4294967296") = true ∧
    Backlight.read_value (some "4294967296") = Except.error Err.parseError ∧
    digitsOnly (rustTrim "+7") = false ∧
    Backlight.read_value (some "+7") = Except.ok 7 :=
  ⟨by decide, by rfl, by decide, by rfl⟩

/-- C6 (amended): `read_value` on an attribute file behaves as follows: it
fails with `IoError` exactly when the file cannot be opened or read
(content `none`); otherwise it trims whitespace and parses the content as
a base-10 u32, failing with `ParseError` exactly when the trimmed content
is not an optional `+` followed by decimal digits with value at most
`2^32 - 1`, and returning the denoted value otherwise. -/
theorem c6_read_value_characterization (content : Option String) :
    Backlight.read_value content =
      (match content with
       | none => Except.error Err.ioError
       | some s =>
         match u32Text (rustTrim s) with
         | none => Except.error Err.parseError
         | some n => Except.ok n) := by
  cases content with
  | none => rfl
  | some s =>
    unfold Backlight.read_value
    dsimp only
    rw [parseU32_eq_u32Text]
